import Mathlib

/-!
# Verification of the plant-identification reconciliation and favourites logic

Shallow embedding of the TypeScript sources of the `plantIDCheck` repository:

* `src/unnamed/part_001` — the genkit flow `identifyPlantFlow` with the zod
  schema `IdentifyPlantOutputSchema`, the name guard, strict validation
  (`safeParse`), and the partial-reconstruction fallback (`partialOutput`).
* `src/src/components/plant-identifier.tsx` (the favourites-bearing component
  starting after the separator at line 226) — the favourite identity key
  (`plantId`), `handleToggleFavourite`, `isCurrentResultFavourite`, and the
  localStorage persistence of the favourites list.

Loosely-typed JavaScript values reaching the flow from the model are embedded
as the inductive `Value`; a candidate object is a record of `Option Value`
fields (`none` = the property is absent / `undefined`).  JavaScript exceptions
escaping the flow body are modelled by the `FlowResult.threw` constructor; the
flow's catch-all converts any such exception to `null`, embedded as
`FlowResult.rejected`.
-/

/-- A loosely-typed JSON-ish JavaScript value, as delivered by the model
before validation.  `null` is distinct from an absent property
(absence is `none` at the field's `Option Value`). -/
inductive Value where
  | str (s : String)
  | bool (b : Bool)
  | num (n : Int)
  | null
  | arr (elems : List Value)

/-- The untyped candidate object returned by the prompt: each property of the
`IdentifyPlantOutputSchema` shape, possibly absent or of the wrong type.
Mirrors the fields of `IdentifyPlantOutputSchema` in `src/unnamed/part_001`,
lines 27–44. -/
structure Candidate where
  commonName : Option Value := none
  latinName : Option Value := none
  alternativeNames : Option Value := none
  isWeed : Option Value := none
  careInstructions : Option Value := none
  healthStatus : Option Value := none
  proposedActions : Option Value := none
  height : Option Value := none
  spread : Option Value := none
  growthRate : Option Value := none
  floweringInfo : Option Value := none
  pruningInfo : Option Value := none
  isEdibleFruit : Option Value := none
  fruitGrowthSeason : Option Value := none
  fruitCareInstructions : Option Value := none
  fruitHarvestTime : Option Value := none

/-- The typed result of a successful parse against `IdentifyPlantOutputSchema`
(`z.infer<typeof IdentifyPlantOutputSchema>`): `commonName`, `isWeed`,
`careInstructions`, `healthStatus`, `proposedActions` are required; every
other field is optional. -/
structure IdentifyPlantOutput where
  commonName : String
  latinName : Option String
  alternativeNames : Option (List String)
  isWeed : Bool
  careInstructions : String
  healthStatus : String
  proposedActions : String
  height : Option String
  spread : Option String
  growthRate : Option String
  floweringInfo : Option String
  pruningInfo : Option String
  isEdibleFruit : Option Bool
  fruitGrowthSeason : Option String
  fruitCareInstructions : Option String
  fruitHarvestTime : Option String
deriving DecidableEq, Repr

/-- Embeds `z.string()` on a required property: present and a string, else fail. -/
def asReqStr : Option Value → Option String
  | some (Value.str s) => some s
  | _ => none

/-- Embeds `z.boolean()` on a required property: present and a boolean, else fail. -/
def asReqBool : Option Value → Option Bool
  | some (Value.bool b) => some b
  | _ => none

/-- Embeds `z.string().optional()`: absent is fine, a present value must be
a string (JSON `null` is not accepted by `.optional()`). -/
def asOptStr : Option Value → Option (Option String)
  | none => some none
  | some (Value.str s) => some (some s)
  | _ => none

/-- Embeds `z.boolean().optional()`. -/
def asOptBool : Option Value → Option (Option Bool)
  | none => some none
  | some (Value.bool b) => some (some b)
  | _ => none

/-- Elementwise `z.string()` over an array: every element must be a string. -/
def asStrList : List Value → Option (List String)
  | [] => some []
  | Value.str s :: rest => (asStrList rest).map (fun l => s :: l)
  | _ => none

/-- Embeds `z.array(z.string()).optional()`. -/
def asOptStrArr : Option Value → Option (Option (List String))
  | none => some none
  | some (Value.arr xs) => (asStrList xs).map some
  | _ => none

/-- Strict validation `IdentifyPlantOutputSchema.safeParse` (`src/unnamed/part_001`,
used at lines 108 and 137): succeeds exactly when every required field is present
with the right type and every present optional field has the right type,
producing the typed record with those values. -/
def safeParse (c : Candidate) : Option IdentifyPlantOutput := do
  let commonName ← asReqStr c.commonName
  let latinName ← asOptStr c.latinName
  let alternativeNames ← asOptStrArr c.alternativeNames
  let isWeed ← asReqBool c.isWeed
  let careInstructions ← asReqStr c.careInstructions
  let healthStatus ← asReqStr c.healthStatus
  let proposedActions ← asReqStr c.proposedActions
  let height ← asOptStr c.height
  let spread ← asOptStr c.spread
  let growthRate ← asOptStr c.growthRate
  let floweringInfo ← asOptStr c.floweringInfo
  let pruningInfo ← asOptStr c.pruningInfo
  let isEdibleFruit ← asOptBool c.isEdibleFruit
  let fruitGrowthSeason ← asOptStr c.fruitGrowthSeason
  let fruitCareInstructions ← asOptStr c.fruitCareInstructions
  let fruitHarvestTime ← asOptStr c.fruitHarvestTime
  pure ⟨commonName, latinName, alternativeNames, isWeed, careInstructions,
    healthStatus, proposedActions, height, spread, growthRate, floweringInfo,
    pruningInfo, isEdibleFruit, fruitGrowthSeason, fruitCareInstructions,
    fruitHarvestTime⟩

/-- JavaScript `String.prototype.trim()`: strip whitespace from both ends,
embedded over the string's character list. -/
def jsTrim (s : String) : String :=
  String.mk (((s.data.dropWhile Char.isWhitespace).reverse.dropWhile
    Char.isWhitespace).reverse)

/-- JavaScript `String.prototype.toLowerCase()`, embedded characterwise. -/
def jsToLower (s : String) : String :=
  String.mk (s.data.map Char.toLower)

/-- JavaScript truthiness of a possibly-absent value (`undefined`, `null`,
`""`, `0` and `false` are falsy). -/
def truthy : Option Value → Bool
  | none => false
  | some (Value.str s) => !(s == "")
  | some (Value.bool b) => b
  | some (Value.num n) => !(n == 0)
  | some Value.null => false
  | some (Value.arr _) => true

/-- JavaScript strict equality `v === lit` between a possibly-absent value
and a string literal. -/
def strictEqStr (v : Option Value) (lit : String) : Bool :=
  match v with
  | some (Value.str s) => s == lit
  | _ => false

/-- Embeds `typeof v === 'string' ? v : undefined`: keep a property only when
it is a string (used for the optional string fields of the partial object). -/
def keepStr : Option Value → Option Value
  | some (Value.str s) => some (Value.str s)
  | _ => none

/-- Embeds the spread guard for the optional boolean field: the property is
kept only when `typeof output.isEdibleFruit === 'boolean'`. -/
def keepBool : Option Value → Option Value
  | some (Value.bool b) => some (Value.bool b)
  | _ => none

/-- Embeds the spread guard for the three fruit fields: a fruit field
survives into the partial object only when `isEdibleFruit` is strictly
`true` and the field is a string. -/
def fruitKeep (isEdibleFruit v : Option Value) : Option Value :=
  match isEdibleFruit, v with
  | some (Value.bool true), some (Value.str s) => some (Value.str s)
  | _, _ => none

/-- The manually reconstructed partial object (`src/unnamed/part_001`,
lines 116–135): `commonName` copied as-is, defaults substituted for the
malformed required fields, optional fields kept only when correctly typed,
`alternativeNames` filtered to its string elements, fruit fields gated on
`isEdibleFruit === true`. -/
def partialOutput (c : Candidate) : Candidate where
  commonName := c.commonName
  latinName := keepStr c.latinName
  alternativeNames :=
    match c.alternativeNames with
    | some (Value.arr xs) =>
        some (Value.arr (xs.filter fun v =>
          match v with
          | Value.str _ => true
          | _ => false))
    | _ => none
  isWeed :=
    some (Value.bool (match c.isWeed with
      | some (Value.bool b) => b
      | _ => false))
  careInstructions :=
    some (Value.str (match c.careInstructions with
      | some (Value.str s) => s
      | _ => "Care information unavailable."))
  healthStatus :=
    some (Value.str (match c.healthStatus with
      | some (Value.str s) => s
      | _ => "Health status unavailable."))
  proposedActions :=
    some (Value.str (match c.proposedActions with
      | some (Value.str s) => s
      | _ => "Proposed actions unavailable."))
  height := keepStr c.height
  spread := keepStr c.spread
  growthRate := keepStr c.growthRate
  floweringInfo := keepStr c.floweringInfo
  pruningInfo := keepStr c.pruningInfo
  isEdibleFruit := keepBool c.isEdibleFruit
  fruitGrowthSeason := fruitKeep c.isEdibleFruit c.fruitGrowthSeason
  fruitCareInstructions := fruitKeep c.isEdibleFruit c.fruitCareInstructions
  fruitHarvestTime := fruitKeep c.isEdibleFruit c.fruitHarvestTime

/-- Outcome of `await plantAnalysisPrompt(input)`: either the promise
resolved with a (possibly absent) output object, or it threw. -/
inductive PromptOutcome where
  | ok (output : Option Candidate)
  | err

/-- Result of one run of `identifyPlantFlow` as observed by its caller:
resolved with a validated object (`accepted`), resolved with `null`
(`rejected`), or rejected the promise with an exception (`threw`).
The flow body is wrapped in a catch-all, so `threw` is never produced. -/
inductive FlowResult where
  | accepted (r : IdentifyPlantOutput)
  | rejected
  | threw
deriving DecidableEq, Repr

/-- The validate-then-repair stage of the flow (`src/unnamed/part_001`,
lines 107–150): strict `safeParse` pass-through on success; on failure,
when `output.commonName` is truthy and not strictly `'Unknown'`, build
`partialOutput` and re-validate it, accepting on success and returning
`null` otherwise; with no usable name, return `null` directly. -/
def reconcile (c : Candidate) : FlowResult :=
  match safeParse c with
  | some r => FlowResult.accepted r
  | none =>
    if truthy c.commonName && !(strictEqStr c.commonName "Unknown") then
      match safeParse (partialOutput c) with
      | some r => FlowResult.accepted r
      | none => FlowResult.rejected
    else
      FlowResult.rejected

/-- The flow `identifyPlantFlow` (`src/unnamed/part_001`, lines 87–162).
It computes `output?.commonName?.trim().toLowerCase()` and then runs
`if (!output || !commonName || commonName === 'unknown') return null`.
A `commonName` that is present but neither a string nor `null` makes
`.trim()` throw a `TypeError`, which the catch-all converts to `null`;
a thrown model call (`PromptOutcome.err`) is likewise caught and
converted to `null` — the flow never rethrows. -/
def identifyPlantFlow : PromptOutcome → FlowResult
  | PromptOutcome.err => FlowResult.rejected
  | PromptOutcome.ok none => FlowResult.rejected
  | PromptOutcome.ok (some c) =>
    match c.commonName with
    | some (Value.str s) =>
      if jsToLower (jsTrim s) == "" || jsToLower (jsTrim s) == "unknown" then
        FlowResult.rejected
      else
        reconcile c
    | _ => FlowResult.rejected

/-- Re-embeds a typed result as the candidate carrying exactly its fields
(used to state that strict validation passes every field through
unchanged). -/
def toCandidate (r : IdentifyPlantOutput) : Candidate where
  commonName := some (Value.str r.commonName)
  latinName := r.latinName.map Value.str
  alternativeNames := r.alternativeNames.map (fun xs => Value.arr (xs.map Value.str))
  isWeed := some (Value.bool r.isWeed)
  careInstructions := some (Value.str r.careInstructions)
  healthStatus := some (Value.str r.healthStatus)
  proposedActions := some (Value.str r.proposedActions)
  height := r.height.map Value.str
  spread := r.spread.map Value.str
  growthRate := r.growthRate.map Value.str
  floweringInfo := r.floweringInfo.map Value.str
  pruningInfo := r.pruningInfo.map Value.str
  isEdibleFruit := r.isEdibleFruit.map Value.bool
  fruitGrowthSeason := r.fruitGrowthSeason.map Value.str
  fruitCareInstructions := r.fruitCareInstructions.map Value.str
  fruitHarvestTime := r.fruitHarvestTime.map Value.str

theorem asReqStr_eq_some {v : Option Value} {s : String} (h : asReqStr v = some s) :
    v = some (Value.str s) := by
  cases v with
  | none => simp [asReqStr] at h
  | some w => cases w <;> simp_all [asReqStr]

theorem asReqBool_eq_some {v : Option Value} {b : Bool} (h : asReqBool v = some b) :
    v = some (Value.bool b) := by
  cases v with
  | none => simp [asReqBool] at h
  | some w => cases w <;> simp_all [asReqBool]

theorem asOptStr_eq_some {v : Option Value} {o : Option String} (h : asOptStr v = some o) :
    v = o.map Value.str := by
  cases v with
  | none => simp [asOptStr] at h; simp [← h]
  | some w =>
    cases w with
    | str s => simp [asOptStr] at h; simp [← h]
    | bool b => simp [asOptStr] at h
    | num n => simp [asOptStr] at h
    | null => simp [asOptStr] at h
    | arr es => simp [asOptStr] at h

theorem asOptBool_eq_some {v : Option Value} {o : Option Bool} (h : asOptBool v = some o) :
    v = o.map Value.bool := by
  cases v with
  | none => simp [asOptBool] at h; simp [← h]
  | some w =>
    cases w with
    | str s => simp [asOptBool] at h
    | bool b => simp [asOptBool] at h; simp [← h]
    | num n => simp [asOptBool] at h
    | null => simp [asOptBool] at h
    | arr es => simp [asOptBool] at h

theorem asStrList_eq_some {xs : List Value} {l : List String} (h : asStrList xs = some l) :
    xs = l.map Value.str := by
  induction xs generalizing l with
  | nil => simp [asStrList] at h; simp [← h]
  | cons v rest ih =>
    cases v <;> simp_all [asStrList]
    obtain ⟨l', hl', rfl⟩ := h
    simp [ih hl']

theorem asOptStrArr_eq_some {v : Option Value} {o : Option (List String)}
    (h : asOptStrArr v = some o) :
    v = o.map (fun xs => Value.arr (xs.map Value.str)) := by
  cases v with
  | none => simp [asOptStrArr] at h; simp [← h]
  | some w =>
    cases w <;> simp_all [asOptStrArr]
    obtain ⟨l, hl, rfl⟩ := h
    simp [asStrList_eq_some hl]

theorem toCandidate_of_safeParse {c : Candidate} {r : IdentifyPlantOutput}
    (h : safeParse c = some r) : toCandidate r = c := by
  unfold safeParse at h
  repeat rw [Option.bind_eq_bind] at h
  rw [Option.bind_eq_some] at h
  obtain ⟨cn, hcn, h⟩ := h
  rw [Option.bind_eq_some] at h
  obtain ⟨ln, hln, h⟩ := h
  rw [Option.bind_eq_some] at h
  obtain ⟨an, han, h⟩ := h
  rw [Option.bind_eq_some] at h
  obtain ⟨iw, hiw, h⟩ := h
  rw [Option.bind_eq_some] at h
  obtain ⟨ci, hci, h⟩ := h
  rw [Option.bind_eq_some] at h
  obtain ⟨hs, hhs, h⟩ := h
  rw [Option.bind_eq_some] at h
  obtain ⟨pa, hpa, h⟩ := h
  rw [Option.bind_eq_some] at h
  obtain ⟨hh, hhh, h⟩ := h
  rw [Option.bind_eq_some] at h
  obtain ⟨sp, hsp, h⟩ := h
  rw [Option.bind_eq_some] at h
  obtain ⟨gr, hgr, h⟩ := h
  rw [Option.bind_eq_some] at h
  obtain ⟨fi, hfi, h⟩ := h
  rw [Option.bind_eq_some] at h
  obtain ⟨pin, hpin, h⟩ := h
  rw [Option.bind_eq_some] at h
  obtain ⟨ef, hef, h⟩ := h
  rw [Option.bind_eq_some] at h
  obtain ⟨fgs, hfgs, h⟩ := h
  rw [Option.bind_eq_some] at h
  obtain ⟨fci, hfci, h⟩ := h
  rw [Option.bind_eq_some] at h
  obtain ⟨fht, hfht, h⟩ := h
  simp only [Option.pure_def, Option.some.injEq] at h
  obtain ⟨⟩ := c
  have e1 := asReqStr_eq_some hcn
  have e2 := asOptStr_eq_some hln
  have e3 := asOptStrArr_eq_some han
  have e4 := asReqBool_eq_some hiw
  have e5 := asReqStr_eq_some hci
  have e6 := asReqStr_eq_some hhs
  have e7 := asReqStr_eq_some hpa
  have e8 := asOptStr_eq_some hhh
  have e9 := asOptStr_eq_some hsp
  have e10 := asOptStr_eq_some hgr
  have e11 := asOptStr_eq_some hfi
  have e12 := asOptStr_eq_some hpin
  have e13 := asOptBool_eq_some hef
  have e14 := asOptStr_eq_some hfgs
  have e15 := asOptStr_eq_some hfci
  have e16 := asOptStr_eq_some hfht
  subst e1 e2 e3 e4 e5 e6 e7 e8 e9 e10 e11 e12 e13 e14 e15 e16
  subst h
  rfl

/-- Projects the string payload of a value, when it is one. -/
def getStr : Option Value → Option String
  | some (Value.str t) => some t
  | _ => none

/-- Projects the boolean payload of a value, when it is one. -/
def getBoolOpt : Option Value → Option Bool
  | some (Value.bool b) => some b
  | _ => none

/-- Collects the string elements of a loosely-typed array, in order
(the effect of `output.alternativeNames.filter(name => typeof name === 'string')`
seen at the typed level). -/
def stringsOf (xs : List Value) : List String :=
  xs.filterMap fun v =>
    match v with
    | Value.str t => some t
    | _ => none

/-- The typed result produced when the partial reconstruction is
re-validated: `commonName` from the candidate's (string) name, defaults for
the malformed required fields, correctly-typed optional fields kept, the
fruit fields gated on `isEdibleFruit === true`.  `safeParse_partialOutput`
proves this is exactly what the repair path of the flow returns. -/
def repairedOf (c : Candidate) (s : String) : IdentifyPlantOutput where
  commonName := s
  latinName := getStr c.latinName
  alternativeNames :=
    match c.alternativeNames with
    | some (Value.arr xs) => some (stringsOf xs)
    | _ => none
  isWeed :=
    match c.isWeed with
    | some (Value.bool b) => b
    | _ => false
  careInstructions :=
    match c.careInstructions with
    | some (Value.str t) => t
    | _ => "Care information unavailable."
  healthStatus :=
    match c.healthStatus with
    | some (Value.str t) => t
    | _ => "Health status unavailable."
  proposedActions :=
    match c.proposedActions with
    | some (Value.str t) => t
    | _ => "Proposed actions unavailable."
  height := getStr c.height
  spread := getStr c.spread
  growthRate := getStr c.growthRate
  floweringInfo := getStr c.floweringInfo
  pruningInfo := getStr c.pruningInfo
  isEdibleFruit := getBoolOpt c.isEdibleFruit
  fruitGrowthSeason := getStr (fruitKeep c.isEdibleFruit c.fruitGrowthSeason)
  fruitCareInstructions := getStr (fruitKeep c.isEdibleFruit c.fruitCareInstructions)
  fruitHarvestTime := getStr (fruitKeep c.isEdibleFruit c.fruitHarvestTime)

/-- Validation of a kept-only-if-string field always succeeds. -/
theorem asOptStr_keepStr (v : Option Value) : asOptStr (keepStr v) = some (getStr v) := by
  cases v with
  | none => rfl
  | some w => cases w <;> rfl

/-- Validation of a kept-only-if-boolean field always succeeds. -/
theorem asOptBool_keepBool (v : Option Value) : asOptBool (keepBool v) = some (getBoolOpt v) := by
  cases v with
  | none => rfl
  | some w => cases w <;> rfl

/-- Validation of a gated fruit field always succeeds. -/
theorem asOptStr_fruitKeep (ef v : Option Value) :
    asOptStr (fruitKeep ef v) = some (getStr (fruitKeep ef v)) := by
  cases ef with
  | none => rfl
  | some w =>
    cases w with
    | bool b =>
      cases b with
      | false => rfl
      | true =>
        cases v with
        | none => rfl
        | some u => cases u <;> rfl
    | str s => rfl
    | num n => rfl
    | null => rfl
    | arr es => rfl

/-- Validation of the filtered `alternativeNames` array always succeeds and
returns exactly the string elements of the original array. -/
theorem asStrList_filterStr (xs : List Value) :
    asStrList (xs.filter fun v =>
      match v with
      | Value.str _ => true
      | _ => false) = some (stringsOf xs) := by
  induction xs with
  | nil => rfl
  | cons v rest ih =>
    cases v <;> simp_all [asStrList, stringsOf, List.filter, List.filterMap]

set_option maxHeartbeats 800000 in
/-- Re-validation of the reconstructed partial object always succeeds when
the candidate's name is a string, and yields `repairedOf`. -/
theorem safeParse_partialOutput {c : Candidate} {s : String}
    (hcn : c.commonName = some (Value.str s)) :
    safeParse (partialOutput c) = some (repairedOf c s) := by
  unfold safeParse partialOutput repairedOf
  simp only [hcn, asReqStr, asReqBool, asOptStr_keepStr, asOptBool_keepBool,
    asOptStr_fruitKeep]
  cases han : c.alternativeNames with
  | none => simp [asOptStrArr, Option.bind_eq_bind]
  | some w =>
    cases w <;> simp [asOptStrArr, asStrList_filterStr, Option.bind_eq_bind]

/-- Behaviour of the flow once the name guard passes: strict-validation
pass-through on success, otherwise acceptance of the repaired object —
the repair path can no longer reject. -/
theorem flow_properName {c : Candidate} {s : String}
    (hcn : c.commonName = some (Value.str s))
    (h1 : jsToLower (jsTrim s) ≠ "")
    (h2 : jsToLower (jsTrim s) ≠ "unknown") :
    identifyPlantFlow (PromptOutcome.ok (some c)) =
      match safeParse c with
      | some r => FlowResult.accepted r
      | none => FlowResult.accepted (repairedOf c s) := by
  have hs0 : s ≠ "" := by
    intro e; exact h1 (by rw [e]; rfl)
  have hsu : s ≠ "Unknown" := by
    intro e; exact h2 (by rw [e]; decide)
  have hg : (jsToLower (jsTrim s) == "" || jsToLower (jsTrim s) == "unknown") = false := by
    simp [h1, h2]
  simp only [identifyPlantFlow]
  rw [hcn]
  simp only [hg, Bool.false_eq_true, if_false]
  unfold reconcile
  cases hsp : safeParse c with
  | some r => rfl
  | none =>
    have hcond : (truthy c.commonName && !strictEqStr c.commonName "Unknown") = true := by
      rw [hcn]
      simp [truthy, strictEqStr, hs0, hsu]
    rw [hcond]
    simp [safeParse_partialOutput hcn]

/-- Results displayed and favourited by the UI: `type PlantResult =
IdentifyPlantOutput` (`plant-identifier.tsx`, line 277). -/
abbrev PlantResult := IdentifyPlantOutput

/-- The derived favourite-identity key (`plant-identifier.tsx`, line 531):
`plant.latinName ? plant.commonName-plant.latinName : plant.commonName`,
recomputed at every comparison.  A present-but-empty `latinName` is falsy
in JavaScript and therefore ignored. -/
def plantId (p : PlantResult) : String :=
  match p.latinName with
  | some l => if l = "" then p.commonName else p.commonName ++ "-" ++ l
  | none => p.commonName

/-- Effect of `handleToggleFavourite` (`plant-identifier.tsx`,
lines 527–564) on the favourites list: no-op on a null plant or a falsy
(empty) `commonName`; otherwise remove every entry whose derived key
matches when one is present, and append the plant when none is. -/
def handleToggleFavourite (favourites : List PlantResult) :
    Option PlantResult → List PlantResult
  | none => favourites
  | some plant =>
    if plant.commonName = "" then favourites
    else
      if favourites.any (fun fav => plantId fav = plantId plant) then
        favourites.filter (fun fav => !(plantId fav = plantId plant : Bool))
      else
        favourites ++ [plant]

/-- Membership test `isCurrentResultFavourite` (`plant-identifier.tsx`,
lines 585–592): false without a current result or with a falsy
`commonName`, otherwise a key-based scan of the favourites list. -/
def isCurrentResultFavourite (favourites : List PlantResult) :
    Option PlantResult → Bool
  | none => false
  | some result =>
    if result.commonName = "" then false
    else favourites.any (fun fav => plantId fav = plantId result)

/-- A JSON value as stored in the favourites slot: the serialized favourites
list only ever contains strings, booleans, arrays and objects. -/
inductive Json where
  | str (s : String)
  | bool (b : Bool)
  | arr (elems : List Json)
  | obj (fields : List (String × Json))

/-- The key/value pairs `JSON.stringify` emits for one favourite: fields
equal to `undefined` are omitted entirely, the rest are written in
declaration order. -/
def encFields (p : PlantResult) : List (String × Option Json) :=
  [("commonName", some (Json.str p.commonName)),
   ("latinName", p.latinName.map Json.str),
   ("alternativeNames", p.alternativeNames.map (fun xs => Json.arr (xs.map Json.str))),
   ("isWeed", some (Json.bool p.isWeed)),
   ("careInstructions", some (Json.str p.careInstructions)),
   ("healthStatus", some (Json.str p.healthStatus)),
   ("proposedActions", some (Json.str p.proposedActions)),
   ("height", p.height.map Json.str),
   ("spread", p.spread.map Json.str),
   ("growthRate", p.growthRate.map Json.str),
   ("floweringInfo", p.floweringInfo.map Json.str),
   ("pruningInfo", p.pruningInfo.map Json.str),
   ("isEdibleFruit", p.isEdibleFruit.map Json.bool),
   ("fruitGrowthSeason", p.fruitGrowthSeason.map Json.str),
   ("fruitCareInstructions", p.fruitCareInstructions.map Json.str),
   ("fruitHarvestTime", p.fruitHarvestTime.map Json.str)]

/-- Serialization of one favourite, at the JSON-value level. -/
def encodePlantResult (p : PlantResult) : Json :=
  Json.obj ((encFields p).filterMap (fun kv => kv.2.map (fun j => (kv.1, j))))

/-- Serialization of the favourites list:
`localStorage.setItem(FAVORITES_STORAGE_KEY, JSON.stringify(favourites))`
(`plant-identifier.tsx`, line 386), modelled up to the external
text-encoding of the resulting JSON value. -/
def saveFavourites (favourites : List PlantResult) : Json :=
  Json.arr (favourites.map encodePlantResult)

/-- Reads a property that the `PlantResult` shape requires to be a string. -/
def jReqStr : Option Json → Option String
  | some (Json.str s) => some s
  | _ => none

/-- Reads a property that the `PlantResult` shape requires to be a boolean. -/
def jReqBool : Option Json → Option Bool
  | some (Json.bool b) => some b
  | _ => none

/-- Reads an optional string property. -/
def jOptStr : Option Json → Option (Option String)
  | none => some none
  | some (Json.str s) => some (some s)
  | _ => none

/-- Reads an optional boolean property. -/
def jOptBool : Option Json → Option (Option Bool)
  | none => some none
  | some (Json.bool b) => some (some b)
  | _ => none

/-- Reads the elements of a JSON array of strings. -/
def jStrList : List Json → Option (List String)
  | [] => some []
  | Json.str s :: rest => (jStrList rest).map (fun l => s :: l)
  | _ => none

/-- Reads an optional array-of-strings property. -/
def jOptStrArr : Option Json → Option (Option (List String))
  | none => some none
  | some (Json.arr xs) => (jStrList xs).map some
  | _ => none

/-- Reinterpretation of one parsed JSON object as a `PlantResult`.  The
component performs this step with an unchecked cast
(`JSON.parse(storedFavourites) as PlantResult[]`, line 374); the reader
is the typed shape that cast asserts, and it succeeds on everything the
serializer emits. -/
def decodePlantResult : Json → Option PlantResult
  | Json.obj fields => do
    let commonName ← jReqStr (List.lookup "commonName" fields)
    let latinName ← jOptStr (List.lookup "latinName" fields)
    let alternativeNames ← jOptStrArr (List.lookup "alternativeNames" fields)
    let isWeed ← jReqBool (List.lookup "isWeed" fields)
    let careInstructions ← jReqStr (List.lookup "careInstructions" fields)
    let healthStatus ← jReqStr (List.lookup "healthStatus" fields)
    let proposedActions ← jReqStr (List.lookup "proposedActions" fields)
    let height ← jOptStr (List.lookup "height" fields)
    let spread ← jOptStr (List.lookup "spread" fields)
    let growthRate ← jOptStr (List.lookup "growthRate" fields)
    let floweringInfo ← jOptStr (List.lookup "floweringInfo" fields)
    let pruningInfo ← jOptStr (List.lookup "pruningInfo" fields)
    let isEdibleFruit ← jOptBool (List.lookup "isEdibleFruit" fields)
    let fruitGrowthSeason ← jOptStr (List.lookup "fruitGrowthSeason" fields)
    let fruitCareInstructions ← jOptStr (List.lookup "fruitCareInstructions" fields)
    let fruitHarvestTime ← jOptStr (List.lookup "fruitHarvestTime" fields)
    pure ⟨commonName, latinName, alternativeNames, isWeed, careInstructions,
      healthStatus, proposedActions, height, spread, growthRate, floweringInfo,
      pruningInfo, isEdibleFruit, fruitGrowthSeason, fruitCareInstructions,
      fruitHarvestTime⟩
  | _ => none

/-- Elementwise reinterpretation of the parsed favourites array. -/
def decodeResults : List Json → Option (List PlantResult)
  | [] => some []
  | j :: rest =>
    match decodePlantResult j, decodeResults rest with
    | some p, some ps => some (p :: ps)
    | _, _ => none

/-- Deserialization at startup: `JSON.parse(storedFavourites) as
PlantResult[]` (`plant-identifier.tsx`, lines 371–376), modelled from the
parsed JSON value. -/
def loadFavourites : Json → Option (List PlantResult)
  | Json.arr xs => decodeResults xs
  | _ => none

/-- Looking up a key that no pair carries, after dropping the omitted
fields, finds nothing. -/
theorem lookup_filterMap_not_mem (fs : List (String × Option Json)) (k : String)
    (hk : ∀ kv ∈ fs, kv.1 ≠ k) :
    List.lookup k (fs.filterMap (fun kv => kv.2.map (fun j => (kv.1, j)))) = none := by
  induction fs with
  | nil => rfl
  | cons kv rest ih =>
    obtain ⟨k', v'⟩ := kv
    have hne : (k == k') = false :=
      beq_eq_false_iff_ne.mpr (Ne.symm (hk (k', v') (List.mem_cons_self _ _)))
    have hrest : ∀ kv ∈ rest, kv.1 ≠ k := fun kv h => hk kv (List.mem_cons_of_mem _ h)
    cases v' with
    | none => simpa [List.filterMap] using ih hrest
    | some j => simp [List.filterMap, List.lookup, hne, ih hrest]

/-- Looking up a key among serialized fields with pairwise-distinct keys
returns exactly the `Option Json` that was attached to that key. -/
theorem lookup_filterMap (fs : List (String × Option Json)) (k : String) (v : Option Json)
    (hmem : (k, v) ∈ fs) (hnd : (fs.map Prod.fst).Nodup) :
    List.lookup k (fs.filterMap (fun kv => kv.2.map (fun j => (kv.1, j)))) = v := by
  induction fs with
  | nil => simp at hmem
  | cons kv rest ih =>
    obtain ⟨k', v'⟩ := kv
    simp only [List.map_cons, List.nodup_cons] at hnd
    rcases List.mem_cons.mp hmem with heq | hmemr
    · obtain ⟨rfl, rfl⟩ := Prod.mk.injEq .. ▸
        And.intro (congrArg Prod.fst heq) (congrArg Prod.snd heq)
      cases v with
      | none =>
        have hrest : ∀ kv ∈ rest, kv.1 ≠ k := by
          intro kv hkv he
          exact hnd.1 (he ▸ List.mem_map_of_mem Prod.fst hkv)
        simpa [List.filterMap] using lookup_filterMap_not_mem rest k hrest
      | some j => simp [List.filterMap, List.lookup]
    · have hkne : (k == k') = false := by
        refine beq_eq_false_iff_ne.mpr fun he => ?_
        exact hnd.1 (he ▸ List.mem_map_of_mem Prod.fst hmemr)
      cases v' with
      | none => simpa [List.filterMap] using ih hmemr hnd.2
      | some j => simp [List.filterMap, List.lookup, hkne, ih hmemr hnd.2]

/-- Reading back an optional string field recovers it. -/
theorem jOptStr_map (o : Option String) : jOptStr (o.map Json.str) = some o := by
  cases o <;> rfl

/-- Reading back an optional boolean field recovers it. -/
theorem jOptBool_map (o : Option Bool) : jOptBool (o.map Json.bool) = some o := by
  cases o <;> rfl

/-- Reading back a serialized string array recovers it. -/
theorem jStrList_map (l : List String) : jStrList (l.map Json.str) = some l := by
  induction l with
  | nil => rfl
  | cons s rest ih => simp [jStrList, ih]

/-- Reading back an optional string-array field recovers it. -/
theorem jOptStrArr_map (o : Option (List String)) :
    jOptStrArr (o.map (fun xs => Json.arr (xs.map Json.str))) = some o := by
  cases o with
  | none => rfl
  | some xs => simp [jOptStrArr, jStrList_map]

/-- The 16 field names written by the serializer are pairwise distinct. -/
theorem encFields_keys_nodup (p : PlantResult) :
    ((encFields p).map Prod.fst).Nodup := by
  simp [encFields]

/-- Deserializing a serialized favourite recovers it exactly. -/
theorem decode_encode (p : PlantResult) :
    decodePlantResult (encodePlantResult p) = some p := by
  obtain ⟨cn, ln, an, iw, ci, hs, pa, hh, sp, gr, fi, pin, ef, fgs, fci, fht⟩ := p
  have hnd := encFields_keys_nodup
    ⟨cn, ln, an, iw, ci, hs, pa, hh, sp, gr, fi, pin, ef, fgs, fci, fht⟩
  have l0 := lookup_filterMap (encFields
    ⟨cn, ln, an, iw, ci, hs, pa, hh, sp, gr, fi, pin, ef, fgs, fci, fht⟩)
    "commonName" (some (Json.str cn)) (List.mem_cons_self _ _) hnd
  have l1 := lookup_filterMap (encFields
    ⟨cn, ln, an, iw, ci, hs, pa, hh, sp, gr, fi, pin, ef, fgs, fci, fht⟩)
    "latinName" (ln.map Json.str) (List.mem_cons_of_mem _ (List.mem_cons_self _ _)) hnd
  have l2 := lookup_filterMap (encFields
    ⟨cn, ln, an, iw, ci, hs, pa, hh, sp, gr, fi, pin, ef, fgs, fci, fht⟩)
    "alternativeNames" (an.map (fun xs => Json.arr (xs.map Json.str))) (List.mem_cons_of_mem _ (List.mem_cons_of_mem _ (List.mem_cons_self _ _))) hnd
  have l3 := lookup_filterMap (encFields
    ⟨cn, ln, an, iw, ci, hs, pa, hh, sp, gr, fi, pin, ef, fgs, fci, fht⟩)
    "isWeed" (some (Json.bool iw)) (List.mem_cons_of_mem _ (List.mem_cons_of_mem _ (List.mem_cons_of_mem _ (List.mem_cons_self _ _)))) hnd
  have l4 := lookup_filterMap (encFields
    ⟨cn, ln, an, iw, ci, hs, pa, hh, sp, gr, fi, pin, ef, fgs, fci, fht⟩)
    "careInstructions" (some (Json.str ci)) (List.mem_cons_of_mem _ (List.mem_cons_of_mem _ (List.mem_cons_of_mem _ (List.mem_cons_of_mem _ (List.mem_cons_self _ _))))) hnd
  have l5 := lookup_filterMap (encFields
    ⟨cn, ln, an, iw, ci, hs, pa, hh, sp, gr, fi, pin, ef, fgs, fci, fht⟩)
    "healthStatus" (some (Json.str hs)) (List.mem_cons_of_mem _ (List.mem_cons_of_mem _ (List.mem_cons_of_mem _ (List.mem_cons_of_mem _ (List.mem_cons_of_mem _ (List.mem_cons_self _ _)))))) hnd
  have l6 := lookup_filterMap (encFields
    ⟨cn, ln, an, iw, ci, hs, pa, hh, sp, gr, fi, pin, ef, fgs, fci, fht⟩)
    "proposedActions" (some (Json.str pa)) (List.mem_cons_of_mem _ (List.mem_cons_of_mem _ (List.mem_cons_of_mem _ (List.mem_cons_of_mem _ (List.mem_cons_of_mem _ (List.mem_cons_of_mem _ (List.mem_cons_self _ _))))))) hnd
  have l7 := lookup_filterMap (encFields
    ⟨cn, ln, an, iw, ci, hs, pa, hh, sp, gr, fi, pin, ef, fgs, fci, fht⟩)
    "height" (hh.map Json.str) (List.mem_cons_of_mem _ (List.mem_cons_of_mem _ (List.mem_cons_of_mem _ (List.mem_cons_of_mem _ (List.mem_cons_of_mem _ (List.mem_cons_of_mem _ (List.mem_cons_of_mem _ (List.mem_cons_self _ _)))))))) hnd
  have l8 := lookup_filterMap (encFields
    ⟨cn, ln, an, iw, ci, hs, pa, hh, sp, gr, fi, pin, ef, fgs, fci, fht⟩)
    "spread" (sp.map Json.str) (List.mem_cons_of_mem _ (List.mem_cons_of_mem _ (List.mem_cons_of_mem _ (List.mem_cons_of_mem _ (List.mem_cons_of_mem _ (List.mem_cons_of_mem _ (List.mem_cons_of_mem _ (List.mem_cons_of_mem _ (List.mem_cons_self _ _))))))))) hnd
  have l9 := lookup_filterMap (encFields
    ⟨cn, ln, an, iw, ci, hs, pa, hh, sp, gr, fi, pin, ef, fgs, fci, fht⟩)
    "growthRate" (gr.map Json.str) (List.mem_cons_of_mem _ (List.mem_cons_of_mem _ (List.mem_cons_of_mem _ (List.mem_cons_of_mem _ (List.mem_cons_of_mem _ (List.mem_cons_of_mem _ (List.mem_cons_of_mem _ (List.mem_cons_of_mem _ (List.mem_cons_of_mem _ (List.mem_cons_self _ _)))))))))) hnd
  have l10 := lookup_filterMap (encFields
    ⟨cn, ln, an, iw, ci, hs, pa, hh, sp, gr, fi, pin, ef, fgs, fci, fht⟩)
    "floweringInfo" (fi.map Json.str) (List.mem_cons_of_mem _ (List.mem_cons_of_mem _ (List.mem_cons_of_mem _ (List.mem_cons_of_mem _ (List.mem_cons_of_mem _ (List.mem_cons_of_mem _ (List.mem_cons_of_mem _ (List.mem_cons_of_mem _ (List.mem_cons_of_mem _ (List.mem_cons_of_mem _ (List.mem_cons_self _ _))))))))))) hnd
  have l11 := lookup_filterMap (encFields
    ⟨cn, ln, an, iw, ci, hs, pa, hh, sp, gr, fi, pin, ef, fgs, fci, fht⟩)
    "pruningInfo" (pin.map Json.str) (List.mem_cons_of_mem _ (List.mem_cons_of_mem _ (List.mem_cons_of_mem _ (List.mem_cons_of_mem _ (List.mem_cons_of_mem _ (List.mem_cons_of_mem _ (List.mem_cons_of_mem _ (List.mem_cons_of_mem _ (List.mem_cons_of_mem _ (List.mem_cons_of_mem _ (List.mem_cons_of_mem _ (List.mem_cons_self _ _)))))))))))) hnd
  have l12 := lookup_filterMap (encFields
    ⟨cn, ln, an, iw, ci, hs, pa, hh, sp, gr, fi, pin, ef, fgs, fci, fht⟩)
    "isEdibleFruit" (ef.map Json.bool) (List.mem_cons_of_mem _ (List.mem_cons_of_mem _ (List.mem_cons_of_mem _ (List.mem_cons_of_mem _ (List.mem_cons_of_mem _ (List.mem_cons_of_mem _ (List.mem_cons_of_mem _ (List.mem_cons_of_mem _ (List.mem_cons_of_mem _ (List.mem_cons_of_mem _ (List.mem_cons_of_mem _ (List.mem_cons_of_mem _ (List.mem_cons_self _ _))))))))))))) hnd
  have l13 := lookup_filterMap (encFields
    ⟨cn, ln, an, iw, ci, hs, pa, hh, sp, gr, fi, pin, ef, fgs, fci, fht⟩)
    "fruitGrowthSeason" (fgs.map Json.str) (List.mem_cons_of_mem _ (List.mem_cons_of_mem _ (List.mem_cons_of_mem _ (List.mem_cons_of_mem _ (List.mem_cons_of_mem _ (List.mem_cons_of_mem _ (List.mem_cons_of_mem _ (List.mem_cons_of_mem _ (List.mem_cons_of_mem _ (List.mem_cons_of_mem _ (List.mem_cons_of_mem _ (List.mem_cons_of_mem _ (List.mem_cons_of_mem _ (List.mem_cons_self _ _)))))))))))))) hnd
  have l14 := lookup_filterMap (encFields
    ⟨cn, ln, an, iw, ci, hs, pa, hh, sp, gr, fi, pin, ef, fgs, fci, fht⟩)
    "fruitCareInstructions" (fci.map Json.str) (List.mem_cons_of_mem _ (List.mem_cons_of_mem _ (List.mem_cons_of_mem _ (List.mem_cons_of_mem _ (List.mem_cons_of_mem _ (List.mem_cons_of_mem _ (List.mem_cons_of_mem _ (List.mem_cons_of_mem _ (List.mem_cons_of_mem _ (List.mem_cons_of_mem _ (List.mem_cons_of_mem _ (List.mem_cons_of_mem _ (List.mem_cons_of_mem _ (List.mem_cons_of_mem _ (List.mem_cons_self _ _))))))))))))))) hnd
  have l15 := lookup_filterMap (encFields
    ⟨cn, ln, an, iw, ci, hs, pa, hh, sp, gr, fi, pin, ef, fgs, fci, fht⟩)
    "fruitHarvestTime" (fht.map Json.str) (List.mem_cons_of_mem _ (List.mem_cons_of_mem _ (List.mem_cons_of_mem _ (List.mem_cons_of_mem _ (List.mem_cons_of_mem _ (List.mem_cons_of_mem _ (List.mem_cons_of_mem _ (List.mem_cons_of_mem _ (List.mem_cons_of_mem _ (List.mem_cons_of_mem _ (List.mem_cons_of_mem _ (List.mem_cons_of_mem _ (List.mem_cons_of_mem _ (List.mem_cons_of_mem _ (List.mem_cons_of_mem _ (List.mem_cons_self _ _)))))))))))))))) hnd
  simp only [decodePlantResult, encodePlantResult]
  rw [l0, l1, l2, l3, l4, l5, l6, l7, l8, l9, l10, l11, l12, l13, l14, l15]
  simp [jOptStr_map, jOptBool_map, jOptStrArr_map, jReqStr, jReqBool,
    Option.bind_eq_bind]

/-- Deserializing a serialized favourites list recovers every entry in
order. -/
theorem decodeResults_map_encode (l : List PlantResult) :
    decodeResults (l.map encodePlantResult) = some l := by
  induction l with
  | nil => rfl
  | cons p rest ih => simp [decodeResults, decode_encode, ih]

/-- Concrete candidate for the `{commonName: "Dandelion", isWeed: "yes",
careInstructions: 123}` scenario. -/
def dandelionCand : Candidate :=
  { commonName := some (Value.str "Dandelion"),
    isWeed := some (Value.str "yes"),
    careInstructions := some (Value.num 123) }

/-- Concrete candidate for the `{commonName: "Rose", isEdibleFruit: false,
fruitHarvestTime: "August"}` scenario. -/
def roseCand : Candidate :=
  { commonName := some (Value.str "Rose"),
    isEdibleFruit := some (Value.bool false),
    fruitHarvestTime := some (Value.str "August") }

/-- A schema-valid candidate carrying all required fields. -/
def validCand : Candidate :=
  { commonName := some (Value.str "Fern"),
    latinName := some (Value.str "Tracheophyta"),
    isWeed := some (Value.bool false),
    careInstructions := some (Value.str "Keep moist"),
    healthStatus := some (Value.str "Healthy"),
    proposedActions := some (Value.str "Routine care") }

/-- The typed result of validating `validCand`. -/
def validOut : IdentifyPlantOutput :=
  ⟨"Fern", some "Tracheophyta", none, false, "Keep moist", "Healthy",
    "Routine care", none, none, none, none, none, none, none, none, none⟩

/-- A schema-valid candidate whose `isEdibleFruit` is `false` while
`fruitHarvestTime` is a valid string. -/
def c4cand : Candidate :=
  { commonName := some (Value.str "Rose"),
    isWeed := some (Value.bool false),
    careInstructions := some (Value.str "Prune yearly"),
    healthStatus := some (Value.str "Healthy"),
    proposedActions := some (Value.str "Routine care"),
    isEdibleFruit := some (Value.bool false),
    fruitHarvestTime := some (Value.str "August") }

/-- The typed result of validating `c4cand`. -/
def c4out : IdentifyPlantOutput :=
  ⟨"Rose", none, none, false, "Prune yearly", "Healthy", "Routine care",
    none, none, none, none, none, some false, none, none, some "August"⟩

/-- A candidate with a proper name, a malformed required `isWeed`, and a
correctly-typed `fruitHarvestTime` that the repair path drops. -/
def c2cand : Candidate :=
  { commonName := some (Value.str "Sunflower"),
    isWeed := some (Value.str "yes"),
    careInstructions := some (Value.str "Full sun"),
    healthStatus := some (Value.str "Healthy"),
    proposedActions := some (Value.str "Routine care"),
    isEdibleFruit := some (Value.bool false),
    fruitHarvestTime := some (Value.str "August") }

/-- C1: a candidate whose name field is absent, empty after trimming, or
case-insensitively equal to "Unknown" after trimming is reconciled to the
null non-identification signal, never an accepted result. -/
theorem claim_C1_bad_name_rejected (c : Candidate)
    (h : c.commonName = none ∨
      ∃ s, c.commonName = some (Value.str s) ∧
        (jsTrim s = "" ∨ jsToLower (jsTrim s) = "unknown")) :
    identifyPlantFlow (PromptOutcome.ok (some c)) = FlowResult.rejected := by
  rcases h with h | ⟨s, hcn, hs⟩
  · simp [identifyPlantFlow, h]
  · simp only [identifyPlantFlow]
    rw [hcn]
    rcases hs with hs | hs
    · have he : jsToLower (jsTrim s) = "" := by rw [hs]; rfl
      simp [he]
    · simp [hs]

/-- Witness for C1 at the candidate `{commonName: " UnKnown "}`. -/
theorem claim_C1_witness :
    identifyPlantFlow (PromptOutcome.ok
      (some { commonName := some (Value.str " UnKnown ") })) = FlowResult.rejected :=
  claim_C1_bad_name_rejected _ (Or.inr ⟨" UnKnown ", rfl, Or.inr (by decide)⟩)

/-- C5 counterexample: when the model call throws, the flow does not
propagate the exception. -/
theorem claim_C5_counterexample :
    identifyPlantFlow PromptOutcome.err ≠ FlowResult.threw := by decide

/-- C5 (amended): when the model call throws, the flow catches the error
and resolves with the null non-identification signal, indistinguishable
from a non-identification for the caller. -/
theorem claim_C5_flow_swallows_error :
    identifyPlantFlow PromptOutcome.err = FlowResult.rejected := rfl

/-- C9: a candidate whose `commonName` is a string that trims and lowers
to a non-empty value other than "unknown" is never rejected: strict
validation either passes, or the repaired object passes re-validation, so
the reject-after-repair branch is unreachable. -/
theorem claim_C9_repair_never_rejects (c : Candidate) (s : String)
    (hcn : c.commonName = some (Value.str s))
    (h1 : jsToLower (jsTrim s) ≠ "")
    (h2 : jsToLower (jsTrim s) ≠ "unknown") :
    identifyPlantFlow (PromptOutcome.ok (some c)) ≠ FlowResult.rejected := by
  rw [flow_properName hcn h1 h2]
  cases safeParse c <;> simp

/-- Witness for C9 at the bare candidate `{commonName: "Thistle"}`. -/
theorem claim_C9_witness :
    identifyPlantFlow (PromptOutcome.ok
      (some { commonName := some (Value.str "Thistle") })) ≠ FlowResult.rejected :=
  claim_C9_repair_never_rejects _ "Thistle" rfl (by decide) (by decide)

/-- C3: a schema-valid candidate with a proper name is accepted unchanged:
the accepted record, re-embedded as a candidate, is exactly the input. -/
theorem claim_C3_valid_passthrough (c : Candidate) (r : IdentifyPlantOutput)
    (hv : safeParse c = some r)
    (h1 : jsToLower (jsTrim r.commonName) ≠ "")
    (h2 : jsToLower (jsTrim r.commonName) ≠ "unknown") :
    identifyPlantFlow (PromptOutcome.ok (some c)) = FlowResult.accepted r
      ∧ toCandidate r = c := by
  have hc := toCandidate_of_safeParse hv
  have hcn : c.commonName = some (Value.str r.commonName) := by rw [← hc]; rfl
  refine ⟨?_, hc⟩
  rw [flow_properName hcn h1 h2, hv]

/-- Witness for C3 at a concrete schema-valid candidate. -/
theorem claim_C3_witness :
    identifyPlantFlow (PromptOutcome.ok (some validCand)) = FlowResult.accepted validOut
      ∧ toCandidate validOut = validCand :=
  claim_C3_valid_passthrough validCand validOut rfl (by decide) (by decide)

/-- Gating with `isEdibleFruit === true` is transparent for the string
projection. -/
theorem getStr_fruitKeep_true (v : Option Value) :
    getStr (fruitKeep (some (Value.bool true)) v) = getStr v := by
  cases v with
  | none => rfl
  | some u => cases u <;> rfl

/-- Without `isEdibleFruit === true` the gate drops the field. -/
theorem fruitKeep_not_true {ef : Option Value} (h : ef ≠ some (Value.bool true))
    (v : Option Value) : fruitKeep ef v = none := by
  cases ef with
  | none => rfl
  | some w =>
    cases w with
    | bool b =>
      cases b with
      | true => exact absurd rfl h
      | false => rfl
    | str s => rfl
    | num n => rfl
    | null => rfl
    | arr es => rfl

/-- Characterization of a gated fruit field: it survives with value `t`
exactly when `isEdibleFruit` is strictly `true` and the field was the
string `t`. -/
theorem getStr_fruitKeep_eq_some (ef v : Option Value) (t : String) :
    getStr (fruitKeep ef v) = some t ↔
      (ef = some (Value.bool true) ∧ v = some (Value.str t)) := by
  by_cases hef : ef = some (Value.bool true)
  · subst hef
    rw [getStr_fruitKeep_true]
    cases v with
    | none => simp [getStr]
    | some u => cases u <;> simp [getStr]
  · rw [fruitKeep_not_true hef]
    simp [getStr, hef]

/-- C2 counterexample: a candidate with a proper name, a malformed
required field, and a correctly-typed `fruitHarvestTime` is accepted with
that correctly-typed field dropped rather than preserved. -/
theorem claim_C2_counterexample :
    c2cand.fruitHarvestTime = some (Value.str "August")
      ∧ ∃ r, identifyPlantFlow (PromptOutcome.ok (some c2cand)) = FlowResult.accepted r
          ∧ r.fruitHarvestTime = none :=
  ⟨rfl, repairedOf c2cand "Sunflower", rfl, rfl⟩

/-- C2 (amended): with a proper name and failed strict validation, the
flow accepts the repaired object: defaults substituted for exactly the
malformed required fields, correctly-typed non-fruit fields preserved
unchanged, and the fruit fields preserved only under
`isEdibleFruit === true`. -/
theorem claim_C2_amended_repair_defaults (c : Candidate) (s : String)
    (hcn : c.commonName = some (Value.str s))
    (h1 : jsToLower (jsTrim s) ≠ "")
    (h2 : jsToLower (jsTrim s) ≠ "unknown")
    (hinv : safeParse c = none) :
    ∃ r, identifyPlantFlow (PromptOutcome.ok (some c)) = FlowResult.accepted r
      ∧ r.commonName = s
      ∧ r.isWeed = (match c.isWeed with
          | some (Value.bool b) => b
          | _ => false)
      ∧ r.careInstructions = (match c.careInstructions with
          | some (Value.str t) => t
          | _ => "Care information unavailable.")
      ∧ r.healthStatus = (match c.healthStatus with
          | some (Value.str t) => t
          | _ => "Health status unavailable.")
      ∧ r.proposedActions = (match c.proposedActions with
          | some (Value.str t) => t
          | _ => "Proposed actions unavailable.")
      ∧ r.latinName = getStr c.latinName
      ∧ r.alternativeNames = (match c.alternativeNames with
          | some (Value.arr xs) => some (stringsOf xs)
          | _ => none)
      ∧ r.height = getStr c.height
      ∧ r.spread = getStr c.spread
      ∧ r.growthRate = getStr c.growthRate
      ∧ r.floweringInfo = getStr c.floweringInfo
      ∧ r.pruningInfo = getStr c.pruningInfo
      ∧ r.isEdibleFruit = getBoolOpt c.isEdibleFruit
      ∧ (c.isEdibleFruit = some (Value.bool true) →
          r.fruitGrowthSeason = getStr c.fruitGrowthSeason
            ∧ r.fruitCareInstructions = getStr c.fruitCareInstructions
            ∧ r.fruitHarvestTime = getStr c.fruitHarvestTime)
      ∧ (c.isEdibleFruit ≠ some (Value.bool true) →
          r.fruitGrowthSeason = none
            ∧ r.fruitCareInstructions = none
            ∧ r.fruitHarvestTime = none) := by
  refine ⟨repairedOf c s, ?_, rfl, rfl, rfl, rfl, rfl, rfl, rfl, rfl, rfl, rfl,
    rfl, rfl, rfl, ?_, ?_⟩
  · rw [flow_properName hcn h1 h2, hinv]
  · intro hef
    refine ⟨?_, ?_, ?_⟩ <;> simp [repairedOf, hef, getStr_fruitKeep_true]
  · intro hef
    refine ⟨?_, ?_, ?_⟩ <;> simp [repairedOf, fruitKeep_not_true hef, getStr]

/-- Witness for C2 at the Dandelion scenario: accepted with `isWeed`
`false` and `careInstructions` the fixed placeholder. -/
theorem claim_C2_witness :
    ∃ r, identifyPlantFlow (PromptOutcome.ok (some dandelionCand)) = FlowResult.accepted r
      ∧ r.isWeed = false
      ∧ r.careInstructions = "Care information unavailable." := by
  obtain ⟨r, hflow, _, hweed, hcare, _⟩ :=
    claim_C2_amended_repair_defaults dandelionCand "Dandelion" rfl
      (by decide) (by decide) (by rfl)
  exact ⟨r, hflow, hweed, hcare⟩

/-- C4 counterexample: a fully schema-valid candidate with
`isEdibleFruit: false` and `fruitHarvestTime: "August"` is accepted with
the fruit field present, violating the only-if direction. -/
theorem claim_C4_counterexample :
    c4cand.isEdibleFruit = some (Value.bool false)
      ∧ identifyPlantFlow (PromptOutcome.ok (some c4cand)) = FlowResult.accepted c4out
      ∧ c4out.isEdibleFruit = some false
      ∧ c4out.fruitHarvestTime = some "August" :=
  ⟨rfl, rfl, rfl, rfl⟩

/-- C4 (amended): for accepted results produced by the
partial-reconstruction path, each fruit field is present with value `t`
iff the candidate had `isEdibleFruit === true` and that specific field was
the valid string `t`. -/
theorem claim_C4_amended_fruit_gating (c : Candidate) (s : String)
    (hcn : c.commonName = some (Value.str s))
    (h1 : jsToLower (jsTrim s) ≠ "")
    (h2 : jsToLower (jsTrim s) ≠ "unknown")
    (hinv : safeParse c = none) :
    ∃ r, identifyPlantFlow (PromptOutcome.ok (some c)) = FlowResult.accepted r
      ∧ (∀ t, r.fruitGrowthSeason = some t ↔
          (c.isEdibleFruit = some (Value.bool true)
            ∧ c.fruitGrowthSeason = some (Value.str t)))
      ∧ (∀ t, r.fruitCareInstructions = some t ↔
          (c.isEdibleFruit = some (Value.bool true)
            ∧ c.fruitCareInstructions = some (Value.str t)))
      ∧ (∀ t, r.fruitHarvestTime = some t ↔
          (c.isEdibleFruit = some (Value.bool true)
            ∧ c.fruitHarvestTime = some (Value.str t))) := by
  refine ⟨repairedOf c s, ?_, ?_, ?_, ?_⟩
  · rw [flow_properName hcn h1 h2, hinv]
  · intro t; exact getStr_fruitKeep_eq_some _ _ t
  · intro t; exact getStr_fruitKeep_eq_some _ _ t
  · intro t; exact getStr_fruitKeep_eq_some _ _ t

/-- Witness for C4 at the Rose scenario: the accepted result omits
`fruitHarvestTime`. -/
theorem claim_C4_witness :
    ∃ r, identifyPlantFlow (PromptOutcome.ok (some roseCand)) = FlowResult.accepted r
      ∧ r.fruitHarvestTime = none := by
  obtain ⟨r, hflow, _, _, hfht⟩ :=
    claim_C4_amended_fruit_gating roseCand "Rose" rfl (by decide) (by decide) (by rfl)
  refine ⟨r, hflow, ?_⟩
  cases hr : r.fruitHarvestTime with
  | none => rfl
  | some t =>
    have := (hfht t).mp hr
    simp [roseCand] at this

/-- A baseline result used to build concrete favourites. -/
def basePlant : PlantResult :=
  ⟨"", none, none, false, "", "", "", none, none, none, none, none, none,
    none, none, none⟩

/-- A favourited Fern entry. -/
def fernResult : PlantResult :=
  { basePlant with commonName := "Fern", careInstructions := "Keep moist" }

/-- Same name and no latin name as `fernResult`, every other field
different. -/
def fernVariant : PlantResult :=
  { basePlant with
      commonName := "Fern", isWeed := true,
      careInstructions := "Different text", healthStatus := "Wilting",
      proposedActions := "Water now", height := some "30cm" }

/-- First member of the colliding pair: `commonName` "A-B", no latin
name. -/
def conflatedA : PlantResult := { basePlant with commonName := "A-B" }

/-- Second member of the colliding pair: `commonName` "A" with latin name
"B". -/
def conflatedB : PlantResult :=
  { basePlant with commonName := "A", latinName := some "B" }

/-- C6: two results with the same `commonName` and no `latinName` on
either side derive the same favourite-identity key, so membership testing
agrees on them and removal treats them as the same entry, whatever their
other fields. -/
theorem claim_C6_identity_collision (p q : PlantResult)
    (hcn : p.commonName = q.commonName)
    (hp : p.latinName = none) (hq : q.latinName = none) :
    plantId p = plantId q
      ∧ (∀ favs, isCurrentResultFavourite favs (some p)
          = isCurrentResultFavourite favs (some q))
      ∧ (∀ favs, isCurrentResultFavourite favs (some p) = true →
          handleToggleFavourite favs (some p) = handleToggleFavourite favs (some q)) := by
  have hid : plantId p = plantId q := by simp [plantId, hp, hq, hcn]
  refine ⟨hid, fun favs => ?_, fun favs hfav => ?_⟩
  · simp [isCurrentResultFavourite, hcn, hid]
  · simp only [isCurrentResultFavourite] at hfav
    by_cases he : p.commonName = ""
    · simp [he] at hfav
    · rw [if_neg he] at hfav
      have he' : ¬ q.commonName = "" := by rw [← hcn]; exact he
      have hanyq : (favs.any fun fav => plantId fav = plantId q) = true := by
        rw [← hid]; exact hfav
      simp [handleToggleFavourite, he, he', hfav, hanyq, hid]

/-- Witness for C6 at two Fern results differing in every other field. -/
theorem claim_C6_witness :
    plantId fernResult = plantId fernVariant
      ∧ isCurrentResultFavourite [fernVariant] (some fernResult)
          = isCurrentResultFavourite [fernVariant] (some fernVariant) :=
  ⟨(claim_C6_identity_collision fernResult fernVariant rfl rfl rfl).1,
    (claim_C6_identity_collision fernResult fernVariant rfl rfl rfl).2.1 [fernVariant]⟩

/-- C7: toggling a result whose derived key is not in the favourites list
adds it, and toggling again removes exactly it, restoring the original
list. -/
theorem claim_C7_add_remove_roundtrip (favs : List PlantResult) (p : PlantResult)
    (h : ∀ f ∈ favs, plantId f ≠ plantId p) :
    handleToggleFavourite (handleToggleFavourite favs (some p)) (some p) = favs := by
  by_cases hcn : p.commonName = ""
  · simp [handleToggleFavourite, hcn]
  · have hany : (favs.any fun fav => plantId fav = plantId p) = false := by
      simp only [List.any_eq_false, decide_eq_true_eq]
      exact h
    have hany2 : ((favs ++ [p]).any fun fav => plantId fav = plantId p) = true := by
      simp [List.any_append]
    have hfilter : ((favs ++ [p]).filter fun fav => !(plantId fav = plantId p : Bool)) = favs := by
      rw [List.filter_append]
      have h1 : favs.filter (fun fav => !(plantId fav = plantId p : Bool)) = favs := by
        rw [List.filter_eq_self]
        intro a ha
        simp [h a ha]
      have h2 : ([p].filter fun fav => !(plantId fav = plantId p : Bool)) = [] := by
        simp
      rw [h1, h2, List.append_nil]
    simp only [handleToggleFavourite, if_neg hcn, hany, Bool.false_eq_true, if_false,
      hany2, if_true, hfilter]

/-- Witness for C7: adding then removing a Fern on the empty favourites
list restores the empty list. -/
theorem claim_C7_witness :
    handleToggleFavourite (handleToggleFavourite [] (some fernResult)) (some fernResult) = [] :=
  claim_C7_add_remove_roundtrip [] fernResult (by simp)

/-- C8: serializing the favourites list to the durable slot and
deserializing it reproduces the same ordered list; in particular a
persisted one-entry Fern list reloads as exactly one entry whose
`commonName` is "Fern". -/
theorem claim_C8_persistence_roundtrip :
    (∀ l : List PlantResult, loadFavourites (saveFavourites l) = some l)
      ∧ loadFavourites (saveFavourites [fernResult]) = some [fernResult]
      ∧ fernResult.commonName = "Fern" := by
  have hall : ∀ l : List PlantResult, loadFavourites (saveFavourites l) = some l := by
    intro l
    simp [saveFavourites, loadFavourites, decodeResults_map_encode]
  exact ⟨hall, hall [fernResult], rfl⟩

/-- C10: the favourite-identity key is not injective on
`(commonName, latinName)`: "A-B" with no latin name and "A" with latin
name "B" collide, and the favourites store conflates the two distinct
plants for membership and removal. -/
theorem claim_C10_key_not_injective :
    (conflatedA.commonName, conflatedA.latinName)
        ≠ (conflatedB.commonName, conflatedB.latinName)
      ∧ plantId conflatedA = plantId conflatedB
      ∧ isCurrentResultFavourite [conflatedB] (some conflatedA) = true
      ∧ handleToggleFavourite [conflatedB] (some conflatedA) = [] := by
  refine ⟨by decide, by decide, by decide, ?_⟩
  decide
